import Mathlib

/-!
Verification of the NFC tag I/O subsystem (`python-services/services/nfc_service.py`
and `nfc_service_simple.py`): the NDEF/TLV wire codec, payload validation, the
scan debounce state machine, and the write-with-verification retry protocol.

Conventions of the embedding:
* Byte strings are `List Nat` (each entry a byte value 0..255 where it matters).
* Python `float` values are identified by their `repr` string, which is also
  exactly what `json.dumps` emits for them; this is a faithful quotient for
  serialization purposes since `repr` is injective on floats.
* Python `time.time()` timestamps are modelled as rationals: the debounce logic
  only ever compares and subtracts them.
* Fallible code returns `Option` / `Except`; a Python exception caught by a
  surrounding handler is an explicit error value.
-/

namespace NFC

/-- Python values that can appear in the JSON payloads handled by the service.
A float is carried as its `repr` string (see module comment). -/
inductive JValue where
  | jnull
  | jbool (b : Bool)
  | jint (n : Int)
  | jfloat (r : String)
  | jstr (s : String)
  | jarr (xs : List JValue)
  | jobj (kvs : List (String × JValue))

/-- ASCII bytes of a pure-ASCII string (used for literals and number reprs). -/
def asciiBytes (s : String) : List Nat := s.data.map Char.toNat

/-- Lower-case hex digit, as Python's `'\x7b0:04x\x7d'.format` produces. -/
def hexLower (n : Nat) : Nat := if n < 10 then 48 + n else 87 + n

/-- Byte expansion of one character under Python's `json` ASCII escaping
(`ensure_ascii=True`, the default used by the service): backslash and quote get
two-character escapes, printable ASCII passes through, the five classic control
characters get short escapes, everything else becomes `\uXXXX` (a surrogate
pair for astral characters). -/
def escChar (c : Char) : List Nat :=
  let n := c.toNat
  if n = 92 then [92, 92]
  else if n = 34 then [92, 34]
  else if 32 ≤ n ∧ n ≤ 126 then [n]
  else if n = 8 then [92, 98]
  else if n = 9 then [92, 116]
  else if n = 10 then [92, 110]
  else if n = 12 then [92, 102]
  else if n = 13 then [92, 114]
  else if n < 65536 then
    [92, 117, hexLower (n / 4096 % 16), hexLower (n / 256 % 16),
     hexLower (n / 16 % 16), hexLower (n % 16)]
  else
    let m := n - 65536
    let hi := 55296 + m / 1024
    let lo := 56320 + m % 1024
    [92, 117, hexLower (hi / 4096 % 16), hexLower (hi / 256 % 16),
     hexLower (hi / 16 % 16), hexLower (hi % 16),
     92, 117, hexLower (lo / 4096 % 16), hexLower (lo / 256 % 16),
     hexLower (lo / 16 % 16), hexLower (lo % 16)]

/-- Bytes of a JSON string literal: quote, escaped characters, quote. -/
def escString (s : String) : List Nat :=
  [34] ++ (s.data.map escChar).flatten ++ [34]

mutual
/-- Bytes of `json.dumps(v)` with item separator `isep` and key separator
`ksep` (the service uses `separators=(',', ':')` on the write path and the
spacey defaults in the mock branch). -/
def dumpsSep (isep ksep : List Nat) : JValue → List Nat
  | .jnull => asciiBytes "null"
  | .jbool b => asciiBytes (if b then "true" else "false")
  | .jint n => asciiBytes (toString n)
  | .jfloat r => asciiBytes r
  | .jstr s => escString s
  | .jarr xs => [91] ++ dumpsArr isep ksep xs ++ [93]
  | .jobj kvs => [123] ++ dumpsObj isep ksep kvs ++ [125]

/-- Array elements joined by the item separator. -/
def dumpsArr (isep ksep : List Nat) : List JValue → List Nat
  | [] => []
  | [x] => dumpsSep isep ksep x
  | x :: y :: rest => dumpsSep isep ksep x ++ isep ++ dumpsArr isep ksep (y :: rest)

/-- Object entries `key ksep value` joined by the item separator, in insertion
order (Python dicts preserve it and `sort_keys` is not used). -/
def dumpsObj (isep ksep : List Nat) : List (String × JValue) → List Nat
  | [] => []
  | [(k, v)] => escString k ++ ksep ++ dumpsSep isep ksep v
  | (k, v) :: p :: rest =>
      escString k ++ ksep ++ dumpsSep isep ksep v ++ isep ++ dumpsObj isep ksep (p :: rest)
end

/-- Bytes of `json.dumps(v, separators=(',', ':'))`: the compact serialization
used for validation, writing and verification. -/
def dumps (v : JValue) : List Nat := dumpsSep [44] [58] v

/-- Bytes of `json.dumps(v)` with the default separators `', '` and `': '`
(used only in the mock-mode branch of `write_json_to_tag`). -/
def dumpsDefault (v : JValue) : List Nat := dumpsSep [44, 32] [58, 32] v

/-- Python `isinstance(x, int)`. `True`/`False` are instances of `int` because
`bool` subclasses `int`. -/
def isPyInt : JValue → Bool
  | .jint _ => true
  | .jbool _ => true
  | _ => false

/-- Python `isinstance(x, (int, float))`. -/
def isPyNumber : JValue → Bool
  | .jint _ => true
  | .jbool _ => true
  | .jfloat _ => true
  | _ => false

/-- Python `isinstance(x, list) and len(x) == 2`, the shape check used for the
`geo` field (element types are not inspected). -/
def isListLen2 : JValue → Bool
  | .jarr gs => gs.length == 2
  | _ => false

/-- `data[key]` / `key in data` on a dict, as an association-list lookup
(Python dict keys are unique, so first-match lookup is exact). -/
def jlookup : List (String × JValue) → String → Option JValue
  | [], _ => none
  | (k, v) :: rest, key => if k = key then some v else jlookup rest key

/-- The distinct `NFCDataError` branches of `NFCService.validate_json_data`;
each corresponds to one raise site with a fixed message shape. -/
inductive VErr where
  | notDict
  | missingFields
  | vNotInt
  | geoInvalid
  | tsNotNumber
  | tooLarge
deriving DecidableEq

/-- `NFCService.validate_json_data`: returns the raised `NFCDataError` branch,
or `none` when validation passes. The size check compares the UTF-8 length of
the compact JSON against `max_tag_data_size - 20` (the config value, not the
tag's capacity). -/
def validate_json_data (maxTagDataSize : Nat) (data : JValue) : Option VErr :=
  match data with
  | .jobj kvs =>
    if (["v", "id", "geo", "ts"].filter (fun f => (jlookup kvs f).isNone)) ≠ [] then
      some .missingFields
    else if ¬ isPyInt ((jlookup kvs "v").getD .jnull) then
      some .vNotInt
    else if ¬ isListLen2 ((jlookup kvs "geo").getD .jnull) then
      some .geoInvalid
    else if ¬ isPyNumber ((jlookup kvs "ts").getD .jnull) then
      some .tsNotNumber
    else if (dumps data).length > maxTagDataSize - 20 then
      some .tooLarge
    else
      none
  | _ => some .notDict

/-! ## Scan debounce state machine (`ScanState`) -/

/-- `ScanState`: the debounce state for cradle-based scanning. Times are
rationals standing in for `time.time()` floats. -/
structure ScanState where
  current_tag_id : Option String
  last_seen_time : Rat
  grace_period : Rat
  write_in_progress : Bool
deriving DecidableEq

/-- `ScanState.should_emit_event`: decision plus state mutation, returned as
`(return value, updated state)`. The unset test in the source is
`self.current_tag_id is None`, an identity test, so the empty string counts
as set here. -/
def should_emit_event (s : ScanState) (tag_id : String) (current_time : Rat) :
    Bool × ScanState :=
  if s.write_in_progress then (false, s)
  else
    match s.current_tag_id with
    | none => (true, ⟨some tag_id, current_time, s.grace_period, s.write_in_progress⟩)
    | some cur =>
      if tag_id ≠ cur then
        (true, ⟨some tag_id, current_time, s.grace_period, s.write_in_progress⟩)
      else
        (false, ⟨some cur, current_time, s.grace_period, s.write_in_progress⟩)

/-- `ScanState.process_no_tag_detected`. The source guard is
`if self.current_tag_id and (...)`: Python truthiness, under which the empty
string is falsy, hence the `cur ≠ ""` conjunct. -/
def process_no_tag_detected (s : ScanState) (current_time : Rat) : ScanState :=
  match s.current_tag_id with
  | some cur =>
    if cur ≠ "" ∧ current_time - s.last_seen_time > s.grace_period then
      ⟨none, s.last_seen_time, s.grace_period, s.write_in_progress⟩
    else s
  | none => s

/-- `ScanState.set_write_mode`: toggles suppression; on disabling it also
clears `current_tag_id` to force a re-scan after a write. -/
def set_write_mode (s : ScanState) (enabled : Bool) : ScanState :=
  if enabled then ⟨s.current_tag_id, s.last_seen_time, s.grace_period, true⟩
  else ⟨none, s.last_seen_time, s.grace_period, false⟩

/-! ## NDEF codec -/

/-- `NFCService._create_text_ndef`: builds the NDEF text record and wraps it in
the TLV. `none` models the `ValueError` that Python's `bytes([...])` raises when
the one-byte payload-length field `len(text) + 3` exceeds 255. -/
def create_text_ndef (text : List Nat) : Option (List Nat) :=
  let payload_length := text.length + 3
  if payload_length ≥ 256 then none
  else
    let ndef_message := [0xD1, 0x01, payload_length, 0x54, 0x02] ++ [0x65, 0x6E] ++ text
    if ndef_message.length < 255 then
      some ([0x03, ndef_message.length] ++ ndef_message ++ [0xFE])
    else
      some ([0x03, 0xFF, (ndef_message.length >>> 8) &&& 0xFF,
             ndef_message.length &&& 0xFF] ++ ndef_message ++ [0xFE])

/-- The TLV/NDEF parse of `NFCService._read_json_from_tag_sync`, from the
assembled buffer down to the text bytes handed to `json.loads`; `none` covers
every path on which the source returns `None` before parsing JSON. Inside the
`data[1] == 0xFF` branch, a buffer of length ≤ 4 leaves `ndef_len`/`ndef_start`
unbound in the source, so the subsequent use raises `UnboundLocalError`, which
the enclosing `except Exception` turns into `None`. The final guard models
`text_str.startswith('\x7b')` on the UTF-8 (`errors='ignore'`) decoding; for
any text region that is valid UTF-8 — all buffers the service itself writes —
that is exactly "first byte is 0x7B". -/
def read_json_from_tag_sync_text (data : List Nat) : Option (List Nat) :=
  if data.length > 2 ∧ data.getD 0 0 = 0x03 then
    let hdr : Option (Nat × Nat) :=
      if data.getD 1 0 = 0xFF then
        if data.length > 4 then some (((data.getD 2 0) <<< 8) ||| data.getD 3 0, 4)
        else none
      else some (data.getD 1 0, 2)
    match hdr with
    | none => none
    | some (ndef_len, ndef_start) =>
      if data.length ≥ ndef_start + ndef_len then
        let ndef_message := (data.drop ndef_start).take ndef_len
        if ndef_message.length > 5 ∧ ndef_message.getD 3 0 = 0x54 then
          let payload_len := ndef_message.getD 2 0
          let status_byte := ndef_message.getD 4 0
          let lang_len := status_byte &&& 0x3F
          let text_start := 5 + lang_len
          let text_end := 4 + payload_len
          if ndef_message.length ≥ text_end then
            let text_data := (ndef_message.drop text_start).take (text_end - text_start)
            if text_data.getD 0 0 = 0x7B then some text_data else none
          else none
        else none
      else none
  else none

/-- The page-assembly loop of `_read_json_from_tag_sync`: reads 4-byte blocks
from page 4 up to page 39 (`range(4, 40)`), stopping at the first falsy block
(`None` or empty). `mem` is the tag memory as seen through
`ntag2xx_read_block`. -/
def read_tag_bytes_from (mem : Nat → Option (List Nat)) : Nat → Nat → List Nat
  | _, 0 => []
  | page, fuel + 1 =>
    match mem page with
    | some block => if block = [] then [] else block ++ read_tag_bytes_from mem (page + 1) fuel
    | none => []

/-- The buffer `_read_json_from_tag_sync` assembles before parsing. -/
def read_tag_bytes (mem : Nat → Option (List Nat)) : List Nat :=
  read_tag_bytes_from mem 4 36

/-- `NFCService._read_json_from_tag_sync`, composed: the text bytes handed to
`json.loads`, or `none`. -/
def read_json_from_tag_sync (mem : Nat → Option (List Nat)) : Option (List Nat) :=
  read_json_from_tag_sync_text (read_tag_bytes mem)

/-- The brace scan of `NFCServiceSimple._read_json_from_tag`: the slice from the
first `0x7B` through the first `0x7D` at or after it, i.e. the bytes that branch
hands to `json.loads`. `none` means the slice guard failed and the source falls
through to its hard-coded mock payload instead. The scan is not balance-aware:
it cuts at the first closing brace regardless of nesting. -/
def simple_find_json (data : List Nat) : Option (List Nat) :=
  match data.findIdx? (· = 0x7B) with
  | none => none
  | some json_start =>
    match (data.drop json_start).findIdx? (· = 0x7D) with
    | none => none
    | some k => some ((data.drop json_start).take (k + 1))

/-! ## Page-level NDEF write (`_write_ndef_data_sync`) -/

/-- Pad a final chunk with zero bytes up to a full 4-byte page
(the `while len(page_data) < 4: page_data.append(0x00)` loop). -/
def pad4 (l : List Nat) : List Nat := l ++ List.replicate (4 - l.length) 0

/-- The clearing phase of `_write_ndef_data_sync`: pages 4..7 are zeroed first. -/
def clear_writes : List (Nat × List Nat) :=
  [(4, [0, 0, 0, 0]), (5, [0, 0, 0, 0]), (6, [0, 0, 0, 0]), (7, [0, 0, 0, 0])]

/-- The data phase of `_write_ndef_data_sync`: starting from `page_num`, emit
`(actual_page, chunk)` writes for the remaining loop iterations (`fuel` of them,
initially `pages_needed = (len + 3) / 4`), breaking as soon as
`actual_page > 39` (the hard NTAG213 page ceiling in the source). -/
def data_writes_from (ndef_data : List Nat) : Nat → Nat → List (Nat × List Nat)
  | _, 0 => []
  | page_num, fuel + 1 =>
    let actual_page := 4 + page_num
    if actual_page > 39 then []
    else
      (actual_page, pad4 ((ndef_data.drop (page_num * 4)).take 4)) ::
        data_writes_from ndef_data (page_num + 1) fuel

/-- The full ordered sequence of `ntag2xx_write_block` calls made by
`_write_ndef_data_sync`, assuming each block write succeeds (a falsy block
write makes the source return `False` early instead). -/
def write_ndef_writes (ndef_data : List Nat) : List (Nat × List Nat) :=
  clear_writes ++ data_writes_from ndef_data 0 ((ndef_data.length + 3) / 4)

/-- Run the write sequence against a hardware oracle `wr` giving each block
write's success, mirroring the early `return False` of the source; `true` is
the value `_write_ndef_data_sync` returns after the loop completes. -/
def run_writes (wr : Nat → List Nat → Bool) : List (Nat × List Nat) → Bool
  | [] => true
  | (p, d) :: rest => if wr p d then run_writes wr rest else false

/-- `_write_ndef_data_sync`'s return value under hardware oracle `wr`. -/
def write_ndef_data_sync (wr : Nat → List Nat → Bool) (ndef_data : List Nat) : Bool :=
  run_writes wr (write_ndef_writes ndef_data)

/-! ## Tag data model and write orchestration -/

/-- `TagType` with its per-model capacity table. -/
inductive TagType where
  | NTAG213
  | NTAG215
  | NTAG216
  | UNKNOWN
deriving DecidableEq

/-- `TagType.capacity` in bytes. -/
def TagType.capacity : TagType → Nat
  | .NTAG213 => 144
  | .NTAG215 => 496
  | .NTAG216 => 872
  | .UNKNOWN => 0

/-- `TagInfo` as produced by tag detection. -/
structure TagInfo where
  uid : String
  type : TagType
  capacity : Nat
  locked : Bool
deriving DecidableEq

/-- The NFC part of the service configuration (`config.nfc`). -/
structure NFCConfig where
  mock_mode : Bool
  write_retry_attempts : Nat
  max_tag_data_size : Nat
deriving DecidableEq

/-- Sources of the `WriteResult.error` string, one per message site. -/
inductive WErr where
  | validation (e : VErr)
  | encodeOverflow
  | ndefTooLarge
  | writeFailed
  | verifyMismatch
  | hwException
  | allAttemptsFailed
deriving DecidableEq

/-- `WriteResult`. -/
structure WRes where
  success : Bool
  tag_uid : String
  bytes_written : Nat
  error : Option WErr
  retry_count : Nat
deriving DecidableEq

/-- Hardware-dependent outcome of one attempt of `_write_with_verification`,
after the deterministic encode and capacity checks: the raw write fails, a
read-back compares (un)equal to the payload, or some call raises. -/
inductive HwStep where
  | raise
  | writeFalse
  | readBack (eq : Bool)
deriving DecidableEq

/-- `NFCService._write_with_verification` for one attempt. Returns the
`WriteResult` or the exception it raises, plus whether any hardware call was
made (the encode and the NDEF-size `NFCDataError` both happen before the
hardware lock is taken). Note the success result leaves `retry_count` at the
dataclass default `0`, and a verification mismatch still reports
`bytes_written = len(json_str)`. -/
def write_with_verification (tag : TagInfo) (data : JValue) (hw : HwStep) :
    Except WErr WRes × Bool :=
  let json_len := (dumps data).length
  match create_text_ndef (dumps data) with
  | none => (.error .encodeOverflow, false)
  | some nd =>
    if nd.length > tag.capacity then (.error .ndefTooLarge, false)
    else
      match hw with
      | .raise => (.error .hwException, true)
      | .writeFalse => (.ok ⟨false, tag.uid, 0, some .writeFailed, 0⟩, true)
      | .readBack eq =>
        if eq then (.ok ⟨true, tag.uid, json_len, none, 0⟩, true)
        else (.ok ⟨false, tag.uid, json_len, some .verifyMismatch, 0⟩, true)

/-- The retry loop of `write_json_to_tag` (`for attempt in range(n)`), from
attempt `i` with `fuel = n - i` iterations left. A successful attempt's result
is returned as-is; an exception on the last attempt returns a failure with
`retry_count = attempt + 1`; falling off the loop returns the
"All write attempts failed" result with `retry_count = n`. The `Bool` is
whether any hardware call happened. -/
def write_loop (tag : TagInfo) (data : JValue) (n : Nat) (oracle : Nat → HwStep) :
    Nat → Nat → WRes × Bool
  | _, 0 => (⟨false, tag.uid, 0, some .allAttemptsFailed, n⟩, false)
  | i, fuel + 1 =>
    match write_with_verification tag data (oracle i) with
    | (.ok res, t) =>
      if res.success then (res, t)
      else
        let (r2, t2) := write_loop tag data n oracle (i + 1) fuel
        (r2, t || t2)
    | (.error e, t) =>
      if i = n - 1 then (⟨false, tag.uid, 0, some e, i + 1⟩, t)
      else
        let (r2, t2) := write_loop tag data n oracle (i + 1) fuel
        (r2, t || t2)

/-- Result of one `write_json_to_tag` call: the returned `WriteResult`, whether
hardware was touched, and the scan state on exit. -/
structure WriteCall where
  res : WRes
  hwTouched : Bool
  scan : ScanState
deriving DecidableEq

/-- The `try` body of `write_json_to_tag`: validate (a `NFCDataError` turns
into an immediate failure result without hardware interaction), branch on mock
mode, otherwise run the retry loop. Returns the result and whether hardware
was touched. -/
def write_json_body (cfg : NFCConfig) (tag : TagInfo) (data : JValue)
    (oracle : Nat → HwStep) : WRes × Bool :=
  match validate_json_data cfg.max_tag_data_size data with
  | some e => (⟨false, tag.uid, 0, some (.validation e), 0⟩, false)
  | none =>
    if cfg.mock_mode then
      (⟨true, tag.uid, (dumpsDefault data).length, none, 0⟩, false)
    else
      write_loop tag data cfg.write_retry_attempts oracle 0 cfg.write_retry_attempts

/-- `NFCService.write_json_to_tag`: enables write mode, runs the body, and —
because every exit path of the source, returns included, goes through the
`finally` block — applies `set_write_mode(False)` to reach the exit state. -/
def write_json_to_tag (cfg : NFCConfig) (tag : TagInfo) (data : JValue)
    (oracle : Nat → HwStep) (s0 : ScanState) : WriteCall :=
  ⟨(write_json_body cfg tag data oracle).1,
   (write_json_body cfg tag data oracle).2,
   set_write_mode (set_write_mode s0 true) false⟩

/-! ## Shared concrete inputs used by witnesses and counterexamples -/

/-- The entries of the spec's concrete scenario payload
`\x7b"v":1,"id":"ABC123","geo":[1.0,2.0],"ts":1700000000\x7d`. -/
def scenarioKvs : List (String × JValue) :=
  [("v", .jint 1), ("id", .jstr "ABC123"),
   ("geo", .jarr [.jfloat "1.0", .jfloat "2.0"]), ("ts", .jint 1700000000)]

/-- The scenario payload as a JSON value. -/
def scenarioPayload : JValue := .jobj scenarioKvs

/-- The default service configuration: real hardware, 3 write attempts,
`max_tag_data_size = 144`. -/
def cfgDefault : NFCConfig := ⟨false, 3, 144⟩

/-- An NTAG213 tag as `wait_for_tag` builds it (capacity from the type). -/
def tag213 : TagInfo := ⟨"04:D3:5E:0A:2F:61:80", .NTAG213, TagType.NTAG213.capacity, false⟩

/-- A tag of unknown type: `detect_tag_type` yields `UNKNOWN`, capacity 0. -/
def tagUnknown : TagInfo := ⟨"01:02:03:04", .UNKNOWN, TagType.UNKNOWN.capacity, false⟩

/-- A fresh scan state with the service's 1.5 s grace period. -/
def scanFresh : ScanState := ⟨none, 0, 3 / 2, false⟩

/-- Hardware behaviour where the first verification read-back mismatches and
every later one matches. -/
def oracleFailOnce : Nat → HwStep := fun i => .readBack (decide (1 ≤ i))

/-! ## Helper lemmas -/

/-- Core codec round trip: any text of at most 247 bytes whose first byte is
an opening brace survives encode-then-decode unchanged (247 keeps the record
in the short TLV form; the service's own payloads are far below it). -/
theorem create_read_roundtrip (t : List Nat) (hlen : t.length ≤ 247)
    (hhead : t.getD 0 0 = 0x7B) :
    Option.bind (create_text_ndef t) read_json_from_tag_sync_text = some t := by
  have h1 : ¬ (t.length + 3 ≥ 256) := by omega
  have h2 : ([0xD1, 0x01, t.length + 3, 0x54, 0x02] ++ [0x65, 0x6E] ++ t).length < 255 := by
    simp; omega
  simp only [create_text_ndef, if_neg h1, if_pos h2, Option.some_bind]
  have hmsg : ([0xD1, 0x01, t.length + 3, 0x54, 0x02] ++ [0x65, 0x6E] ++ t).length
      = 7 + t.length := by simp; omega
  rw [hmsg]
  have hbuf : ([0x03, 7 + t.length] ++
        ([0xD1, 0x01, t.length + 3, 0x54, 0x02] ++ [0x65, 0x6E] ++ t) ++ [0xFE])
      = 3 :: (7 + t.length) :: 0xD1 :: 0x01 :: (t.length + 3) :: 0x54 :: 0x02 :: 0x65
          :: 0x6E :: (t ++ [0xFE]) := by
    simp
  rw [hbuf]
  unfold read_json_from_tag_sync_text
  rw [if_pos (by refine ⟨?_, rfl⟩; simp; try omega)]
  rw [if_neg (by simp only [List.getD_cons_succ, List.getD_cons_zero]; omega)]
  simp only [List.getD_cons_zero, List.getD_cons_succ]
  rw [if_pos (by simp only [List.length_cons, List.length_append, List.length_cons,
    List.length_nil]; omega)]
  have hdrop : (3 :: (7 + t.length) :: 0xD1 :: 0x01 :: (t.length + 3) :: 0x54 :: 0x02
      :: 0x65 :: 0x6E :: (t ++ [0xFE])).drop 2
      = (0xD1 :: 0x01 :: (t.length + 3) :: 0x54 :: 0x02 :: 0x65 :: 0x6E :: t) ++ [0xFE] := by
    simp
  rw [hdrop]
  have htake : ((0xD1 :: 0x01 :: (t.length + 3) :: 0x54 :: 0x02 :: 0x65 :: 0x6E :: t)
      ++ [0xFE]).take (7 + t.length)
      = 0xD1 :: 0x01 :: (t.length + 3) :: 0x54 :: 0x02 :: 0x65 :: 0x6E :: t := by
    apply List.take_left'
    simp; omega
  rw [htake]
  rw [if_pos (by refine ⟨?_, rfl⟩; simp; try omega)]
  simp only [List.getD_cons_zero, List.getD_cons_succ]
  rw [if_pos (by simp; omega)]
  have h7 : (5 : Nat) + (2 &&& 0x3F) = 7 := by decide
  have hdrop7 : (0xD1 :: 0x01 :: (t.length + 3) :: 0x54 :: 0x02 :: 0x65 :: 0x6E :: t).drop
      (5 + (2 &&& 0x3F)) = t := by
    rw [h7]; simp
  rw [hdrop7]
  have htext : t.take (4 + (t.length + 3) - (5 + (2 &&& 0x3F))) = t := by
    rw [h7]
    have he : 4 + (t.length + 3) - 7 = t.length := by omega
    rw [he, List.take_length]
  rw [htext, if_pos hhead]

/-- The compact serialization of any object starts with an opening brace. -/
theorem dumps_jobj_head (kvs : List (String × JValue)) :
    (dumps (.jobj kvs)).getD 0 0 = 0x7B := by
  simp [dumps, dumpsSep]

/-- The required-field filter is empty exactly when all four keys are present. -/
theorem filter_keys_nil_iff (kvs : List (String × JValue)) :
    ((["v", "id", "geo", "ts"] : List String).filter
        (fun f => (jlookup kvs f).isNone)) = [] ↔
      ((jlookup kvs "v").isSome = true ∧ (jlookup kvs "id").isSome = true ∧
       (jlookup kvs "geo").isSome = true ∧ (jlookup kvs "ts").isSome = true) := by
  simp [List.filter_eq_nil_iff, Option.isNone_iff_eq_none, Option.isSome_iff_ne_none]

/-- `validate_json_data` passes exactly on dicts that have all four required
keys, a Python-integer `v`, a two-element list `geo`, a Python-number `ts`,
and a compact JSON serialization of at most `maxTagDataSize - 20` bytes. -/
theorem validate_none_iff (maxTagDataSize : Nat) (data : JValue) :
    validate_json_data maxTagDataSize data = none ↔
      ∃ kvs, data = .jobj kvs ∧
        (jlookup kvs "v").isSome = true ∧ (jlookup kvs "id").isSome = true ∧
        (jlookup kvs "geo").isSome = true ∧ (jlookup kvs "ts").isSome = true ∧
        isPyInt ((jlookup kvs "v").getD .jnull) = true ∧
        isListLen2 ((jlookup kvs "geo").getD .jnull) = true ∧
        isPyNumber ((jlookup kvs "ts").getD .jnull) = true ∧
        (dumps data).length ≤ maxTagDataSize - 20 := by
  cases data with
  | jobj kvs =>
    constructor
    · intro hnone
      simp only [validate_json_data] at hnone
      split_ifs at hnone with h1 h2 h3 h4 h5 <;> try exact Option.noConfusion hnone
      obtain ⟨hv, hid, hgeo, hts⟩ := (filter_keys_nil_iff kvs).mp (not_ne_iff.mp h1)
      refine ⟨kvs, rfl, hv, hid, hgeo, hts, ?_, ?_, ?_, by omega⟩
      · simpa using h2
      · simpa using h3
      · simpa using h4
    · rintro ⟨kvs', hk, hv, hid, hgeo, hts, hvint, hgeo2, htsn, hlen⟩
      injection hk with hk'
      subst hk'
      simp only [validate_json_data]
      rw [if_neg (not_ne_iff.mpr ((filter_keys_nil_iff kvs).mpr ⟨hv, hid, hgeo, hts⟩)),
          if_neg (not_not.mpr hvint), if_neg (not_not.mpr hgeo2),
          if_neg (not_not.mpr htsn), if_neg (by omega)]
  | jnull => exact ⟨fun h => Option.noConfusion h, fun ⟨_, hk, _⟩ => JValue.noConfusion hk⟩
  | jbool b => exact ⟨fun h => Option.noConfusion h, fun ⟨_, hk, _⟩ => JValue.noConfusion hk⟩
  | jint n => exact ⟨fun h => Option.noConfusion h, fun ⟨_, hk, _⟩ => JValue.noConfusion hk⟩
  | jfloat r => exact ⟨fun h => Option.noConfusion h, fun ⟨_, hk, _⟩ => JValue.noConfusion hk⟩
  | jstr s => exact ⟨fun h => Option.noConfusion h, fun ⟨_, hk, _⟩ => JValue.noConfusion hk⟩
  | jarr xs => exact ⟨fun h => Option.noConfusion h, fun ⟨_, hk, _⟩ => JValue.noConfusion hk⟩

/-- An over-long payload never passes validation: some `NFCDataError` branch
fires (the size branch at the latest). -/
theorem validate_some_of_large (maxTagDataSize : Nat) (data : JValue)
    (h : (dumps data).length > maxTagDataSize - 20) :
    ∃ e, validate_json_data maxTagDataSize data = some e := by
  cases hv : validate_json_data maxTagDataSize data with
  | some e => exact ⟨e, rfl⟩
  | none =>
    obtain ⟨kvs, -, -, -, -, -, -, -, -, hlen⟩ := (validate_none_iff maxTagDataSize data).mp hv
    omega

/-! ## Claims -/

/-- Claim C1: for every payload map with keys `v` (integer), `id` (string),
`geo` (2-element numeric list), `ts` (number) whose compact JSON serialization
is at most `capacity - 20 = 124` bytes, the TLV/NDEF parse of
`_read_json_from_tag_sync` applied to the buffer `_create_text_ndef` builds
from the compact JSON returns exactly that JSON text, so `json.loads` of it
yields the original payload. -/
theorem claim_C1_ndef_roundtrip
    (kvs : List (String × JValue)) (v : Int) (id : String) (g1 g2 tsv : JValue)
    (hv : jlookup kvs "v" = some (.jint v))
    (hid : jlookup kvs "id" = some (.jstr id))
    (hgeo : jlookup kvs "geo" = some (.jarr [g1, g2]))
    (hg1 : isPyNumber g1 = true) (hg2 : isPyNumber g2 = true)
    (hts : jlookup kvs "ts" = some tsv) (htsn : isPyNumber tsv = true)
    (hlen : (dumps (.jobj kvs)).length ≤ 144 - 20) :
    Option.bind (create_text_ndef (dumps (.jobj kvs))) read_json_from_tag_sync_text
      = some (dumps (.jobj kvs)) := by
  apply create_read_roundtrip
  · omega
  · exact dumps_jobj_head kvs

/-- Witness for C1 at the spec's concrete scenario payload (53-byte compact
JSON, within the 124-byte bound). -/
theorem claim_C1_ndef_roundtrip_witness :
    Option.bind (create_text_ndef (dumps scenarioPayload)) read_json_from_tag_sync_text
      = some (dumps scenarioPayload) :=
  claim_C1_ndef_roundtrip scenarioKvs 1 "ABC123" (.jfloat "1.0") (.jfloat "2.0")
    (.jint 1700000000) rfl rfl rfl rfl rfl rfl rfl (by decide)

/-- Claim C4: `should_emit_event` returns `false` unconditionally while
`write_in_progress` is set (state untouched); with no current tag it records
the tag and time and returns `true`; on a different tag it updates both fields
and returns `true`; on the same tag it refreshes `last_seen_time` only and
returns `false`. -/
theorem claim_C4_should_emit_semantics (s : ScanState) (tid : String) (t : Rat) :
    (s.write_in_progress = true → should_emit_event s tid t = (false, s)) ∧
    (s.write_in_progress = false → s.current_tag_id = none →
      should_emit_event s tid t = (true, ⟨some tid, t, s.grace_period, false⟩)) ∧
    (∀ cur, s.write_in_progress = false → s.current_tag_id = some cur → tid ≠ cur →
      should_emit_event s tid t = (true, ⟨some tid, t, s.grace_period, false⟩)) ∧
    (∀ cur, s.write_in_progress = false → s.current_tag_id = some cur → tid = cur →
      should_emit_event s tid t = (false, ⟨some cur, t, s.grace_period, false⟩)) := by
  obtain ⟨c, l, g, w⟩ := s
  refine ⟨?_, ?_, ?_, ?_⟩ <;> intros <;> simp_all [should_emit_event]

/-- Witness for C4: the four transition cases at concrete states. -/
theorem claim_C4_should_emit_semantics_witness :
    should_emit_event ⟨none, 0, 1, true⟩ "A" 5 = (false, ⟨none, 0, 1, true⟩) ∧
    should_emit_event ⟨none, 0, 1, false⟩ "A" 5 = (true, ⟨some "A", 5, 1, false⟩) ∧
    should_emit_event ⟨some "A", 0, 1, false⟩ "B" 5 = (true, ⟨some "B", 5, 1, false⟩) ∧
    should_emit_event ⟨some "A", 0, 1, false⟩ "A" 5 = (false, ⟨some "A", 5, 1, false⟩) :=
  ⟨(claim_C4_should_emit_semantics ⟨none, 0, 1, true⟩ "A" 5).1 rfl,
   (claim_C4_should_emit_semantics ⟨none, 0, 1, false⟩ "A" 5).2.1 rfl rfl,
   (claim_C4_should_emit_semantics ⟨some "A", 0, 1, false⟩ "B" 5).2.2.1 "A" rfl rfl
     (by decide),
   (claim_C4_should_emit_semantics ⟨some "A", 0, 1, false⟩ "A" 5).2.2.2 "A" rfl rfl rfl⟩

/-- Counterexample to C5 as stated: the claim quantifies over every text
string, but for a 253-byte text the one-byte payload-length field would be
256, and `bytes([...])` in the source raises `ValueError`, so no record is
produced at all. -/
theorem claim_C5_counterexample :
    create_text_ndef (List.replicate 253 97) = none := by
  simp only [create_text_ndef, List.length_replicate]
  norm_num

/-- Claim C5 (amended: texts of UTF-8 length at most 252, so the payload
length fits its single byte): the encoder emits exactly
`[0x03, len] ++ [0xD1, 0x01, len(text)+3, 'T', 0x02, 'e', 'n'] ++ text ++ [0xFE]`
when the record is shorter than 255 bytes, and the extended TLV
`[0x03, 0xFF, hi, lo]` form (big-endian 16-bit record length) otherwise. -/
theorem claim_C5_wire_format (text : List Nat) (h : text.length + 3 < 256) :
    create_text_ndef text = some (
      if 7 + text.length < 255 then
        0x03 :: (7 + text.length) :: 0xD1 :: 0x01 :: (text.length + 3) :: 0x54 :: 0x02
          :: 0x65 :: 0x6E :: (text ++ [0xFE])
      else
        0x03 :: 0xFF :: ((7 + text.length) / 256) :: ((7 + text.length) % 256) :: 0xD1
          :: 0x01 :: (text.length + 3) :: 0x54 :: 0x02 :: 0x65 :: 0x6E :: (text ++ [0xFE])) := by
  have hmsg : ([0xD1, 0x01, text.length + 3, 0x54, 0x02] ++ [0x65, 0x6E] ++ text).length
      = 7 + text.length := by simp; omega
  simp only [create_text_ndef, if_neg (by omega : ¬ (text.length + 3 ≥ 256)), hmsg]
  by_cases hc : 7 + text.length < 255
  · rw [if_pos hc, if_pos hc]
    simp
  · rw [if_neg hc, if_neg hc]
    have hdiv : (7 + text.length) >>> 8 &&& 0xFF = (7 + text.length) / 256 := by
      rw [Nat.shiftRight_eq_div_pow]
      rw [(by norm_num : (0xFF : Nat) = 2 ^ 8 - 1), Nat.and_pow_two_sub_one_eq_mod]
      rw [(by norm_num : (2 : Nat) ^ 8 = 256)]
      omega
    have hmod : (7 + text.length) &&& 0xFF = (7 + text.length) % 256 := by
      rw [(by norm_num : (0xFF : Nat) = 2 ^ 8 - 1), Nat.and_pow_two_sub_one_eq_mod]
    rw [hdiv, hmod]
    simp

/-- Witness for C5 at the two-byte text `"hi"`. -/
theorem claim_C5_wire_format_witness :
    create_text_ndef [104, 105]
      = some [0x03, 9, 0xD1, 0x01, 5, 0x54, 0x02, 0x65, 0x6E, 104, 105, 0xFE] := by
  rw [claim_C5_wire_format [104, 105] (by decide)]
  decide

/-- Counterexample to C7 as stated: the guard in the source is Python
truthiness (`if self.current_tag_id and ...`), so with `current_tag_id` set to
the empty string — reachable via `should_emit_event("")` — the tag is never
cleared even long after the grace period. -/
theorem claim_C7_counterexample :
    process_no_tag_detected ⟨some "", 0, 1, false⟩ 10 = ⟨some "", 0, 1, false⟩ ∧
    (10 : Rat) - 0 > 1 := by
  constructor
  · rfl
  · norm_num

/-- Claim C7 (amended: the current tag must also be a non-empty string, the
Python-truthy reading of "is set"): `process_no_tag_detected(now)` clears
`current_tag_id` exactly when it holds a non-empty tag and
`now - last_seen_time > grace_period`; it is the identity when no tag is
current; and a tag presented, removed past the grace period, then re-presented
emits two events. -/
theorem claim_C7_grace_period :
    (∀ (s : ScanState) (t : Rat) (cur : String), s.current_tag_id = some cur →
      ((process_no_tag_detected s t).current_tag_id = none ↔
        (cur ≠ "" ∧ t - s.last_seen_time > s.grace_period))) ∧
    (∀ (s : ScanState) (t : Rat), s.current_tag_id = none →
      process_no_tag_detected s t = s) ∧
    (∀ (g lst : Rat) (tid : String) (t1 t2 t3 : Rat), tid ≠ "" → t2 - t1 > g →
      (should_emit_event ⟨none, lst, g, false⟩ tid t1).1 = true ∧
      (should_emit_event
        (process_no_tag_detected (should_emit_event ⟨none, lst, g, false⟩ tid t1).2 t2)
        tid t3).1 = true) := by
  refine ⟨?_, ?_, ?_⟩
  · intro s t cur hcur
    obtain ⟨c, l, g, w⟩ := s
    simp only at hcur
    subst hcur
    simp only [process_no_tag_detected]
    split_ifs with h
    · simp [h]
    · simpa using h
  · intro s t hnone
    obtain ⟨c, l, g, w⟩ := s
    simp only at hnone
    subst hnone
    rfl
  · intro g lst tid t1 t2 t3 htid helapsed
    refine ⟨rfl, ?_⟩
    have h1 : (should_emit_event ⟨none, lst, g, false⟩ tid t1).2
        = ⟨some tid, t1, g, false⟩ := rfl
    rw [h1]
    have h2 : process_no_tag_detected ⟨some tid, t1, g, false⟩ t2
        = ⟨none, t1, g, false⟩ := by
      simp only [process_no_tag_detected]
      rw [if_pos ⟨htid, helapsed⟩]
    rw [h2]
    rfl

/-- Witness for C7: the clearing equivalence at a concrete state, and a
concrete present/remove/re-present run that emits twice. -/
theorem claim_C7_grace_period_witness :
    ((process_no_tag_detected ⟨some "A", 0, 1, false⟩ 10).current_tag_id = none ↔
      ("A" ≠ "" ∧ (10 : Rat) - 0 > 1)) ∧
    (should_emit_event
      (process_no_tag_detected (should_emit_event ⟨none, 0, 1, false⟩ "A" 0).2 2)
      "A" 3).1 = true :=
  ⟨claim_C7_grace_period.1 ⟨some "A", 0, 1, false⟩ 10 "A" rfl,
   (claim_C7_grace_period.2.2 1 0 "A" 0 2 3 (by decide) (by norm_num)).2⟩

/-- Claim C8: `write_json_to_tag` leaves `write_in_progress` false on every
outcome (the `finally` applies `set_write_mode(False)`), `set_write_mode(False)`
clears `current_tag_id`, and consequently the next detection of any tag —
the just-written one included — emits a fresh event. -/
theorem claim_C8_write_mode_cleanup (cfg : NFCConfig) (tag : TagInfo) (data : JValue)
    (oracle : Nat → HwStep) (s0 : ScanState) :
    (write_json_to_tag cfg tag data oracle s0).scan.write_in_progress = false ∧
    (write_json_to_tag cfg tag data oracle s0).scan.current_tag_id = none ∧
    (∀ s : ScanState, (set_write_mode s false).current_tag_id = none) ∧
    (∀ (tid : String) (t : Rat),
      (should_emit_event (write_json_to_tag cfg tag data oracle s0).scan tid t).1 = true) := by
  refine ⟨rfl, rfl, fun s => rfl, fun tid t => rfl⟩

/-- Claim C10: `validate_json_data` raises `NFCDataError` exactly when the
payload is not a dict, misses one of `v`/`id`/`geo`/`ts`, has a `v` that is not
a Python integer, a `geo` that is not a 2-element list, a `ts` that is not a
Python number, or a compact UTF-8 JSON serialization longer than
`max_tag_data_size - 20`; in particular a payload whose `id` is not a string
and whose `geo` entries are not numbers is accepted. -/
theorem claim_C10_validate_raises_iff :
    (∀ (maxTagDataSize : Nat) (data : JValue),
      (validate_json_data maxTagDataSize data).isSome = true ↔
        ¬ ∃ kvs, data = .jobj kvs ∧
          (jlookup kvs "v").isSome = true ∧ (jlookup kvs "id").isSome = true ∧
          (jlookup kvs "geo").isSome = true ∧ (jlookup kvs "ts").isSome = true ∧
          isPyInt ((jlookup kvs "v").getD .jnull) = true ∧
          isListLen2 ((jlookup kvs "geo").getD .jnull) = true ∧
          isPyNumber ((jlookup kvs "ts").getD .jnull) = true ∧
          (dumps data).length ≤ maxTagDataSize - 20) ∧
    validate_json_data 144 (.jobj [("v", .jint 1), ("id", .jint 7),
      ("geo", .jarr [.jstr "x", .jnull]), ("ts", .jint 0)]) = none := by
  constructor
  · intro maxTagDataSize data
    rw [← validate_none_iff maxTagDataSize data]
    cases validate_json_data maxTagDataSize data <;> simp
  · decide

/-- Counterexample to C2 as stated: a small, schema-valid payload presented
with a zero-capacity tag exceeds `tag.capacity - 20`, yet validation (which
compares against `config.max_tag_data_size - 20`, not the tag capacity) passes,
and the resulting `NFCDataError` from the NDEF-size check inside the attempt
loop is retried three times (`retry_count = 3`) instead of short-circuiting. -/
theorem claim_C2_counterexample :
    (dumps scenarioPayload).length > tagUnknown.capacity - 20 ∧
    validate_json_data cfgDefault.max_tag_data_size scenarioPayload = none ∧
    (write_json_to_tag cfgDefault tagUnknown scenarioPayload
        (fun _ => .readBack true) scanFresh).res.retry_count = 3 ∧
    (write_json_to_tag cfgDefault tagUnknown scenarioPayload
        (fun _ => .readBack true) scanFresh).res.error = some .ndefTooLarge := by
  decide

/-- Claim C2 (amended: the size bound is `config.max_tag_data_size - 20`, not
`tag.capacity - 20`): a payload whose compact JSON exceeds it makes
`write_json_to_tag` return a failed `WriteResult` carrying a validation
`DataError`, with no hardware interaction and no retry (`retry_count = 0`). -/
theorem claim_C2_capacity_bound (cfg : NFCConfig) (tag : TagInfo) (data : JValue)
    (oracle : Nat → HwStep) (s0 : ScanState)
    (h : (dumps data).length > cfg.max_tag_data_size - 20) :
    ∃ e, (write_json_to_tag cfg tag data oracle s0).res
        = ⟨false, tag.uid, 0, some (.validation e), 0⟩ ∧
      (write_json_to_tag cfg tag data oracle s0).hwTouched = false := by
  obtain ⟨e, he⟩ := validate_some_of_large cfg.max_tag_data_size data h
  exact ⟨e, by simp [write_json_to_tag, write_json_body, he],
    by simp [write_json_to_tag, write_json_body, he]⟩

set_option maxRecDepth 16384 in
/-- Witness for C2 with an oversized payload (a 150-character `id` makes the
compact JSON 188 bytes, above `144 - 20 = 124`). -/
theorem claim_C2_capacity_bound_witness :
    (dumps (.jobj [("v", .jint 1), ("id", .jstr (String.mk (List.replicate 150 'a'))),
        ("geo", .jarr [.jint 0, .jint 0]), ("ts", .jint 0)])).length
      > cfgDefault.max_tag_data_size - 20 ∧
    ∃ e, (write_json_to_tag cfgDefault tag213
        (.jobj [("v", .jint 1), ("id", .jstr (String.mk (List.replicate 150 'a'))),
          ("geo", .jarr [.jint 0, .jint 0]), ("ts", .jint 0)])
        (fun _ => .readBack true) scanFresh).res
        = ⟨false, tag213.uid, 0, some (.validation e), 0⟩ ∧
      (write_json_to_tag cfgDefault tag213
        (.jobj [("v", .jint 1), ("id", .jstr (String.mk (List.replicate 150 'a'))),
          ("geo", .jarr [.jint 0, .jint 0]), ("ts", .jint 0)])
        (fun _ => .readBack true) scanFresh).hwTouched = false :=
  ⟨by decide,
   claim_C2_capacity_bound cfgDefault tag213 _ (fun _ => .readBack true) scanFresh (by decide)⟩

/-- One attempt with a matching read-back yields the success result — whose
`retry_count` is the dataclass default `0`, the constructor not setting it. -/
theorem wwv_readBack_true (tag : TagInfo) (data : JValue) (nd : List Nat)
    (hnd : create_text_ndef (dumps data) = some nd) (hcap : nd.length ≤ tag.capacity) :
    write_with_verification tag data (.readBack true)
      = (.ok ⟨true, tag.uid, (dumps data).length, none, 0⟩, true) := by
  simp only [write_with_verification, hnd]
  rw [if_neg (by omega : ¬ nd.length > tag.capacity)]
  simp

/-- One attempt with a mismatching read-back yields the verification-failure
result. -/
theorem wwv_readBack_false (tag : TagInfo) (data : JValue) (nd : List Nat)
    (hnd : create_text_ndef (dumps data) = some nd) (hcap : nd.length ≤ tag.capacity) :
    write_with_verification tag data (.readBack false)
      = (.ok ⟨false, tag.uid, (dumps data).length, some .verifyMismatch, 0⟩, true) := by
  simp only [write_with_verification, hnd]
  rw [if_neg (by omega : ¬ nd.length > tag.capacity)]
  simp

/-- Running the retry loop from attempt `i` when the next `k` verifications
mismatch and the one after succeeds returns the success result of
`_write_with_verification` unchanged — `retry_count = 0` however large `k` is. -/
theorem write_loop_success_result (tag : TagInfo) (data : JValue) (n : Nat)
    (oracle : Nat → HwStep) (nd : List Nat)
    (hnd : create_text_ndef (dumps data) = some nd) (hcap : nd.length ≤ tag.capacity) :
    ∀ (fuel i k : Nat), k < fuel →
      (∀ j, j < k → oracle (i + j) = .readBack false) →
      oracle (i + k) = .readBack true →
      (write_loop tag data n oracle i fuel).1
        = ⟨true, tag.uid, (dumps data).length, none, 0⟩ := by
  intro fuel
  induction fuel with
  | zero => intro i k hk; omega
  | succ fuel ih =>
    intro i k hk hfail hsucc
    cases k with
    | zero =>
      have h0 : oracle i = .readBack true := by simpa using hsucc
      simp only [write_loop, h0, wwv_readBack_true tag data nd hnd hcap]
      simp
    | succ k' =>
      have h0 : oracle i = .readBack false := by simpa using hfail 0 (by omega)
      simp only [write_loop, h0, wwv_readBack_false tag data nd hnd hcap]
      have hrec := ih (i + 1) k' (by omega)
        (fun j hj => by
          have := hfail (j + 1) (by omega)
          rwa [show i + (j + 1) = i + 1 + j by omega] at this)
        (by rwa [show i + (k' + 1) = i + 1 + k' by omega] at hsucc)
      simpa using hrec

/-- Counterexample to C3 as stated: one failed verification followed by a
success (`k = 1 < 3` attempts) returns `retry_count = 0`, not `k = 1` — the
success path of `_write_with_verification` never sets `retry_count` and
`write_json_to_tag` returns its result unmodified. -/
theorem claim_C3_counterexample :
    (write_json_to_tag cfgDefault tag213 scenarioPayload oracleFailOnce scanFresh).res.success
      = true ∧
    (write_json_to_tag cfgDefault tag213 scenarioPayload oracleFailOnce scanFresh).res.retry_count
      = 0 ∧
    ¬ (write_json_to_tag cfgDefault tag213 scenarioPayload
        oracleFailOnce scanFresh).res.retry_count = 1 := by
  decide

/-- Claim C3 (amended: a write whose verification fails `k < write_retry_attempts`
times before succeeding returns `success = true` with `retry_count = 0` — the
retry count is reported only on failure results, never on success). -/
theorem claim_C3_retry_count (cfg : NFCConfig) (tag : TagInfo) (data : JValue)
    (oracle : Nat → HwStep) (s0 : ScanState) (k : Nat)
    (hmock : cfg.mock_mode = false)
    (hvalid : validate_json_data cfg.max_tag_data_size data = none)
    (hk : k < cfg.write_retry_attempts)
    (hfail : ∀ j, j < k → oracle j = .readBack false)
    (hsucc : oracle k = .readBack true)
    (hnd : (create_text_ndef (dumps data)).isSome = true)
    (hcap : ((create_text_ndef (dumps data)).getD []).length ≤ tag.capacity) :
    (write_json_to_tag cfg tag data oracle s0).res
      = ⟨true, tag.uid, (dumps data).length, none, 0⟩ := by
  obtain ⟨nd, hnd'⟩ := Option.isSome_iff_exists.mp hnd
  rw [hnd'] at hcap
  simp only [write_json_to_tag, write_json_body, hvalid, hmock, Bool.false_eq_true,
    if_false]
  exact write_loop_success_result tag data cfg.write_retry_attempts oracle nd hnd'
    (by simpa using hcap) cfg.write_retry_attempts 0 k hk
    (fun j hj => by simpa using hfail j hj) (by simpa using hsucc)

/-- Witness for C3 at the scenario payload with one verification mismatch
before success. -/
theorem claim_C3_retry_count_witness :
    (write_json_to_tag cfgDefault tag213 scenarioPayload oracleFailOnce scanFresh).res
      = ⟨true, tag213.uid, (dumps scenarioPayload).length, none, 0⟩ :=
  claim_C3_retry_count cfgDefault tag213 scenarioPayload oracleFailOnce scanFresh 1
    rfl (by decide) (by decide) (by decide) (by decide) (by decide) (by decide)

/-- Counterexample to C6 as stated: a buffer whose strict decode fails (first
byte is not the TLV tag `0x03`) but which contains the balanced substring
`0x7B 0x22 0x61 0x22 0x3A 0x31 0x7D` makes `_read_json_from_tag_sync` return
`None` — no brace-scan fallback exists there; and the simplified service's
scan, on a nested object, cuts at the first closing brace, returning an
unbalanced slice rather than the balanced `\x7b...\x7d` substring. -/
theorem claim_C6_counterexample :
    read_json_from_tag_sync_text [120, 120, 123, 34, 97, 34, 58, 49, 125, 121] = none ∧
    simple_find_json [123, 34, 97, 34, 58, 123, 34, 98, 34, 58, 49, 125, 125]
      = some [123, 34, 97, 34, 58, 123, 34, 98, 34, 58, 49, 125] := by
  decide

/-- Claim C6 (amended: when the strict decode fails, `_read_json_from_tag_sync`
returns `None` with no fallback of any kind; the brace scan lives only in
`NFCServiceSimple._read_json_from_tag`, runs instead of — not after — a strict
decode, takes the slice from the first `0x7B` to the first `0x7D` after it with
no balance tracking, JSON-parses it rather than returning it verbatim, and
substitutes mock data when no opening brace is found). -/
theorem claim_C6_no_fallback :
    (∀ data : List Nat, data.getD 0 0 ≠ 0x03 → read_json_from_tag_sync_text data = none) ∧
    (∀ (data : List Nat) (i j : Nat), data.findIdx? (· = 0x7B) = some i →
      (data.drop i).findIdx? (· = 0x7D) = some j →
      simple_find_json data = some ((data.drop i).take (j + 1))) ∧
    (∀ data : List Nat, data.findIdx? (· = 0x7B) = none → simple_find_json data = none) := by
  refine ⟨?_, ?_, ?_⟩
  · intro data h
    unfold read_json_from_tag_sync_text
    rw [if_neg (fun hc => h hc.2)]
  · intro data i j hi hj
    simp [simple_find_json, hi, hj]
  · intro data h
    simp [simple_find_json, h]

/-- Witness for C6: strict decode of a non-TLV buffer yields nothing, and the
simple scan on `'a' 0x7B 'b' 0x7D` returns the slice `0x7B 'b' 0x7D`. -/
theorem claim_C6_no_fallback_witness :
    read_json_from_tag_sync_text [0, 123, 125] = none ∧
    simple_find_json [97, 123, 98, 125] = some [123, 98, 125] :=
  ⟨claim_C6_no_fallback.1 [0, 123, 125] (by decide),
   claim_C6_no_fallback.2.1 [97, 123, 98, 125] 1 2 (by decide) (by decide)⟩

/-- Past the page-39 ceiling the data loop emits nothing. -/
theorem data_writes_from_ceiling (nd : List Nat) (fuel p : Nat) (hp : 36 ≤ p) :
    data_writes_from nd p fuel = [] := by
  cases fuel with
  | zero => rfl
  | succ fuel => simp only [data_writes_from]; rw [if_pos (by omega)]

/-- The pages touched by the data loop: starting at `page_num = p` with enough
fuel, they are exactly `4 + p` through `39`. -/
theorem data_writes_pages (nd : List Nat) :
    ∀ (fuel p : Nat), p ≤ 36 → 36 - p ≤ fuel →
      (data_writes_from nd p fuel).map Prod.fst
        = (List.range (36 - p)).map (fun q => 4 + p + q) := by
  intro fuel
  induction fuel with
  | zero =>
    intro p hp hf
    have : p = 36 := by omega
    subst this
    simp [data_writes_from_ceiling]
  | succ fuel ih =>
    intro p hp hf
    by_cases h36 : p = 36
    · subst h36
      simp [data_writes_from_ceiling]
    · simp only [data_writes_from]
      rw [if_neg (by omega)]
      simp only [List.map_cons]
      rw [ih (p + 1) (by omega) (by omega)]
      rw [show 36 - p = (36 - (p + 1)) + 1 by omega, List.range_succ_eq_map]
      simp only [List.map_cons, List.map_map]
      rw [List.cons.injEq]
      refine ⟨by omega, ?_⟩
      apply List.map_congr_left
      intro a _
      simp only [Function.comp]
      omega

/-- The bytes the data loop writes: with enough fuel and data, the
concatenation of the written chunks is the corresponding slice of the buffer
(each chunk is full, so the zero padding never fires). -/
theorem data_writes_flatten (nd : List Nat) :
    ∀ (fuel p : Nat), p + fuel ≤ 36 → (p + fuel) * 4 ≤ nd.length →
      ((data_writes_from nd p fuel).map Prod.snd).flatten
        = (nd.drop (p * 4)).take (fuel * 4) := by
  intro fuel
  induction fuel with
  | zero => intro p hp hlen; rfl
  | succ fuel ih =>
    intro p hp hlen
    simp only [data_writes_from]
    rw [if_neg (by omega)]
    have hchunk : ((nd.drop (p * 4)).take 4).length = 4 := by
      rw [List.length_take, List.length_drop,
        Nat.min_eq_left (by omega : 4 ≤ nd.length - p * 4)]
    have hpad : pad4 ((nd.drop (p * 4)).take 4) = (nd.drop (p * 4)).take 4 := by
      unfold pad4
      rw [hchunk]
      simp
    simp only [List.map_cons, List.flatten_cons, hpad]
    rw [ih (p + 1) (by omega) (by omega)]
    rw [show (fuel + 1) * 4 = 4 + fuel * 4 by omega, List.take_add]
    congr 1
    rw [List.drop_drop, show p * 4 + 4 = (p + 1) * 4 by omega]

/-- All-successful block writes make `run_writes` return `true`. -/
theorem run_writes_all_true (wr : Nat → List Nat → Bool)
    (hwr : ∀ p d, wr p d = true) : ∀ ws, run_writes wr ws = true := by
  intro ws
  induction ws with
  | nil => rfl
  | cons pd rest ih =>
    obtain ⟨p, d⟩ := pd
    simp only [run_writes, hwr p d, if_true, ih]

/-- The assembled read buffer depends only on the pages the loop can touch. -/
theorem read_tag_bytes_from_congr (mem mem' : Nat → Option (List Nat)) :
    ∀ (fuel p : Nat), (∀ q, p ≤ q → q < p + fuel → mem q = mem' q) →
      read_tag_bytes_from mem p fuel = read_tag_bytes_from mem' p fuel := by
  intro fuel
  induction fuel with
  | zero => intro p _; rfl
  | succ fuel ih =>
    intro p hag
    simp only [read_tag_bytes_from]
    rw [hag p (by omega) (by omega)]
    rw [ih (p + 1) (fun q h1 h2 => hag q (by omega) (by omega))]

/-- Claim C9: for an NDEF buffer longer than 144 bytes,
`_write_ndef_data_sync` writes only pages 4 through 39 — exactly the first
144 bytes of the buffer, in order — stops at the page-39 ceiling, and still
returns `True`; and the read loop of `_read_json_from_tag_sync` touches at
most pages 4 through 39. -/
theorem claim_C9_page_ceiling (nd : List Nat) (wr : Nat → List Nat → Bool)
    (mem mem' : Nat → Option (List Nat))
    (hlen : nd.length > 144)
    (hwr : ∀ p d, wr p d = true)
    (hmem : ∀ q, 4 ≤ q → q < 40 → mem q = mem' q) :
    ((data_writes_from nd 0 ((nd.length + 3) / 4)).map Prod.fst
        = (List.range 36).map (fun q => 4 + q)) ∧
    (((data_writes_from nd 0 ((nd.length + 3) / 4)).map Prod.snd).flatten
        = nd.take 144) ∧
    (∀ page ∈ (write_ndef_writes nd).map Prod.fst, 4 ≤ page ∧ page ≤ 39) ∧
    write_ndef_data_sync wr nd = true ∧
    read_tag_bytes mem = read_tag_bytes mem' := by
  have hfuel : 36 ≤ (nd.length + 3) / 4 := by omega
  have hpages := data_writes_pages nd ((nd.length + 3) / 4) 0 (by omega) (by omega)
  simp only [Nat.sub_zero] at hpages
  have hpages' : (data_writes_from nd 0 ((nd.length + 3) / 4)).map Prod.fst
      = (List.range 36).map (fun q => 4 + q) := by
    rw [hpages]
  refine ⟨hpages', ?_, ?_, ?_, ?_⟩
  · -- the loop breaks after 36 pages, so only fuel 36 is consumed
    have hsplit : data_writes_from nd 0 ((nd.length + 3) / 4)
        = data_writes_from nd 0 36 ++ data_writes_from nd 36 ((nd.length + 3) / 4 - 36) := by
      clear hpages hpages'
      generalize hq : (nd.length + 3) / 4 = fq at hfuel
      rw [data_writes_from_ceiling nd _ 36 (by omega)]
      rw [List.append_nil]
      -- both sides enumerate the same 36 iterations
      have hgen : ∀ (m fuel fuel' p : Nat), p + m = 36 → m ≤ fuel → m ≤ fuel' →
          data_writes_from nd p fuel = data_writes_from nd p fuel' := by
        intro m
        induction m with
        | zero =>
          intro fuel fuel' p hpm _ _
          rw [data_writes_from_ceiling nd fuel p (by omega),
            data_writes_from_ceiling nd fuel' p (by omega)]
        | succ m ihm =>
          intro fuel fuel' p hpm hf hf'
          cases fuel with
          | zero => omega
          | succ fuel =>
            cases fuel' with
            | zero => omega
            | succ fuel' =>
              simp only [data_writes_from]
              rw [if_neg (by omega), if_neg (by omega)]
              rw [ihm fuel fuel' (p + 1) (by omega) (by omega) (by omega)]
      exact hgen 36 fq 36 0 (by omega) (by omega) (by omega)
    rw [hsplit, data_writes_from_ceiling nd _ 36 (by omega), List.append_nil]
    have := data_writes_flatten nd 36 0 (by omega) (by omega)
    simpa using this
  · intro page hpage
    simp only [write_ndef_writes, List.map_append, List.mem_append] at hpage
    rcases hpage with hcl | hdata
    · simp only [clear_writes] at hcl
      simp at hcl
      omega
    · rw [hpages] at hdata
      simp only [List.mem_map, List.mem_range] at hdata
      obtain ⟨q, hq, hqe⟩ := hdata
      omega
  · exact run_writes_all_true wr hwr _
  · exact read_tag_bytes_from_congr mem mem' 36 4
      (fun q h1 h2 => hmem q h1 (by omega))

/-- Witness for C9 at a 150-byte buffer with ideal hardware. -/
theorem claim_C9_page_ceiling_witness :
    (((data_writes_from (List.replicate 150 7) 0 ((150 + 3) / 4)).map Prod.snd).flatten
        = (List.replicate 150 7).take 144) ∧
    write_ndef_data_sync (fun _ _ => true) (List.replicate 150 7) = true :=
  have h := claim_C9_page_ceiling (List.replicate 150 7) (fun _ _ => true)
    (fun _ => none) (fun _ => none) (by simp) (fun _ _ => rfl) (fun _ _ _ => rfl)
  ⟨by simpa using h.2.1, h.2.2.2.1⟩

end NFC
